import Mathlib

/-!
# SOAP client round trip (package soap, src/soap/client.go)

A shallow embedding of `Client.RoundTrip` and of the data it builds.

The XML codec (`encoding/xml`) and the HTTP client (`net/http`) are libraries
outside the repository.  They enter the embedding as the fields of
`Collaborators`; every theorem below quantifies over all of them, so it holds
for whatever the real encoder, transport and decoder do.

Effects are made explicit: `RoundTrip` returns, next to its Go return value,
the final contents of the inbound value and the ordered list of calls it made
on its collaborators (`Event`), ending with the return to the caller.
-/

namespace soap

/-- Contents of a `bytes.Buffer`. -/
abbrev Bytes := List UInt8

/-- Go `interface{}` (the source types `Message` and `Header`): either nil
(`none`) or a dynamic value of the caller's type `V`. -/
abbrev Message (V : Type) := Option V

/-- Go `type Header interface{}`. -/
abbrev Header (V : Type) := Option V

/-- Go `xml.Name`; the source never assigns it, so it always holds its zero value. -/
structure Name where
  Space : String := ""
  Local : String := ""
deriving DecidableEq

/-- AuthHeader of the source (lines 29-33). -/
structure AuthHeader where
  Namespace : String
  Username : String
  Password : String
deriving DecidableEq

/-- Client of the source (lines 36-43).  `Config` is a `*http.Client`: nil is
`none`, otherwise a handle of type `T` on a transport. -/
structure Client (V T : Type) where
  URL : String
  Namespace : String
  Envelope : String
  Header : Header V
  ContentType : String
  Config : Option T
deriving DecidableEq

/-- Body of the source (lines 98-101). -/
structure Body (V : Type) where
  XMLName : Name := {}
  Message : Message V
deriving DecidableEq

/-- Envelope of the source (lines 89-95). -/
structure Envelope (V : Type) where
  XMLName : Name := {}
  EnvelopeAttr : String
  NSAttr : String
  Header : Message V
  Body : Body V
deriving DecidableEq

/-- The part of `*http.Response` that RoundTrip uses: its `Body` stream. -/
structure Response (R : Type) where
  Body : R
deriving DecidableEq

/-- The libraries RoundTrip calls.  `E` is Go's `error` (non-nil values),
`R` a response body stream, `I` the contents of the inbound value that
`Decode` writes through the pointer it is given. -/
structure Collaborators (V I T R E : Type) where
  /-- Models `xml.NewEncoder(&b).Encode(req)`: the buffer contents, or the error. -/
  Encode : Envelope V → Except E Bytes
  /-- Models `http.DefaultClient`. -/
  DefaultClient : T
  /-- Models `cli.Post(url, contentType, body)`. -/
  Post : T → String → String → Bytes → Except E (Response R)
  /-- Models `xml.NewDecoder(body).Decode(out)`: the inbound value afterwards and the
  returned error (`none` is nil). -/
  Decode : R → I → I × Option E

/-- One observable step of RoundTrip. -/
inductive Event (V T R E : Type) where
  | encode (req : Envelope V)
  | post (cli : T) (url : String) (contentType : String) (body : Bytes)
  | decode (body : R)
  | close (body : R)
  | ret (err : Option E)
deriving DecidableEq

/-- What a call of RoundTrip leaves behind: the returned error (`none` is nil),
the contents of the inbound value, and the calls made, in order. -/
structure Outcome (V I T R E : Type) where
  err : Option E
  out : I
  trace : List (Event V T R E)

/-- Lines 47-58 of RoundTrip: the envelope literal and its two defaults. -/
def newEnvelope {V T : Type} (c : Client V T) (inp : Message V) : Envelope V :=
  let req : Envelope V :=
    { EnvelopeAttr := c.Envelope
      NSAttr := c.Namespace
      Header := c.Header
      Body := { Message := inp } }
  let req : Envelope V :=
    if req.EnvelopeAttr = "" then
      { req with EnvelopeAttr := "http://schemas.xmlsoap.org/soap/envelope/" }
    else req
  let req : Envelope V :=
    if req.NSAttr = "" then { req with NSAttr := c.URL } else req
  req

/-- Lines 64-67 of RoundTrip: the content type. -/
def contentType {V T : Type} (c : Client V T) : String :=
  let ct := c.ContentType
  if ct = "" then "text/xml" else ct

/-- Lines 68-71 of RoundTrip: the HTTP client. -/
def httpClient {V I T R E : Type} (k : Collaborators V I T R E) (c : Client V T) : T :=
  match c.Config with
  | none => k.DefaultClient
  | some cli => cli

/-- A `return err` statement: the deferred calls run, last deferred first, and
then the caller gets `err`. -/
def returning {V I T R E : Type} (trace deferred : List (Event V T R E))
    (err : Option E) (out : I) : Outcome V I T R E :=
  { err := err, out := out, trace := trace ++ deferred ++ [Event.ret err] }

/-- Client.RoundTrip of the source (lines 46-86).  `out` is the contents of the
inbound value before the call.  The `if false` block of lines 77-84 never runs
and has no step here. -/
def RoundTrip {V I T R E : Type} (k : Collaborators V I T R E) (c : Client V T)
    (inp : Message V) (out : I) : Outcome V I T R E :=
  let req := newEnvelope c inp
  match k.Encode req with
  | .error err => returning [Event.encode req] [] (some err) out
  | .ok b =>
    let ct := contentType c
    let cli := httpClient k c
    match k.Post cli c.URL ct b with
    | .error err => returning [Event.encode req, Event.post cli c.URL ct b] [] (some err) out
    | .ok resp =>
      let deferred := [Event.close resp.Body]
      let r := k.Decode resp.Body out
      returning [Event.encode req, Event.post cli c.URL ct b, Event.decode resp.Body]
        deferred r.2 r.1

/-! ## Reading a trace -/

/-- The envelopes handed to the XML encoder, in order. -/
def encodeCalls {V T R E : Type} : List (Event V T R E) → List (Envelope V)
  | [] => []
  | Event.encode req :: rest => req :: encodeCalls rest
  | _ :: rest => encodeCalls rest

/-- The calls of Post, in order: client, destination, content type, body. -/
def postCalls {V T R E : Type} : List (Event V T R E) → List (T × String × String × Bytes)
  | [] => []
  | Event.post cli url ct b :: rest => (cli, url, ct, b) :: postCalls rest
  | _ :: rest => postCalls rest

/-- The response bodies handed to the XML decoder, in order. -/
def decodeCalls {V T R E : Type} : List (Event V T R E) → List R
  | [] => []
  | Event.decode body :: rest => body :: decodeCalls rest
  | _ :: rest => decodeCalls rest

/-- The response bodies closed, in order. -/
def closeCalls {V T R E : Type} : List (Event V T R E) → List R
  | [] => []
  | Event.close body :: rest => body :: closeCalls rest
  | _ :: rest => closeCalls rest

/-! ## Test doubles

Concrete collaborators on which the general theorems are instantiated. -/

/-- Values a caller may pass as message or header in the examples. -/
inductive StubValue where
  | ping (Op : String)
  | auth (h : AuthHeader)
  | channel
deriving DecidableEq

/-- The inbound type of the examples, `struct { Status string }`. -/
structure Result where
  Status : String
deriving DecidableEq

/-- A transport stub: it answers every Post with a canned body or a canned error. -/
inductive StubTransport where
  | replies (body : String)
  | fails (err : String)
deriving DecidableEq

/-- The document the stub encoder writes. -/
def stubDocument : Bytes := [60, 101, 47, 62]

/-- A stub encoder: it rejects an envelope whose body carries a channel, as
`encoding/xml` rejects a value of an unsupported type, and writes
`stubDocument` otherwise. -/
def stubEncode : Envelope StubValue → Except String Bytes
  | ⟨_, _, _, _, ⟨_, some StubValue.channel⟩⟩ => .error "xml: unsupported type: chan int"
  | _ => .ok stubDocument

/-- The stub transport at work. -/
def stubPost : StubTransport → String → String → Bytes → Except String (Response String)
  | StubTransport.replies body, _, _, _ => .ok { Body := body }
  | StubTransport.fails err, _, _, _ => .error err

/-- A stub decoder for `Result`: it knows one document. -/
def stubDecode (body : String) (out : Result) : Result × Option String :=
  if body = "<Result><Status>OK</Status></Result>" then ({ Status := "OK" }, none)
  else (out, some "EOF")

/-- The stub collaborators. -/
def stubs : Collaborators StubValue Result StubTransport String String :=
  { Encode := stubEncode
    DefaultClient := StubTransport.fails "dial tcp: connection refused"
    Post := stubPost
    Decode := stubDecode }

/-- A client with every field at its zero value. -/
def zeroClient : Client StubValue StubTransport :=
  { URL := "", Namespace := "", Envelope := "", Header := none, ContentType := "", Config := none }

/-- The client of the scenarios: `Client{URL: "http://x/svc"}` on a transport
stub that answers with `body`. -/
def svcClient (body : String) : Client StubValue StubTransport :=
  { zeroClient with
    URL := "http://x/svc"
    Config := some (StubTransport.replies body) }

/-! ## Shared lemmas -/

section
variable {V I T R E : Type}

/-- The envelope of lines 47-58, field by field. -/
theorem newEnvelope_fields (c : Client V T) (inp : Message V) :
    newEnvelope c inp =
      { EnvelopeAttr :=
          if c.Envelope = "" then "http://schemas.xmlsoap.org/soap/envelope/" else c.Envelope
        NSAttr := if c.Namespace = "" then c.URL else c.Namespace
        Header := c.Header
        Body := { Message := inp } } := by
  unfold newEnvelope
  by_cases h1 : c.Envelope = "" <;> by_cases h2 : c.Namespace = "" <;> simp [h1, h2]

/-- RoundTrip when the encoder fails. -/
theorem RoundTrip_of_encode_error (k : Collaborators V I T R E) (c : Client V T)
    (inp : Message V) (out : I) (e : E)
    (h : k.Encode (newEnvelope c inp) = .error e) :
    RoundTrip k c inp out = returning [Event.encode (newEnvelope c inp)] [] (some e) out := by
  simp [RoundTrip, h]

/-- RoundTrip when the encoder succeeds and Post fails. -/
theorem RoundTrip_of_post_error (k : Collaborators V I T R E) (c : Client V T)
    (inp : Message V) (out : I) (b : Bytes) (e : E)
    (hb : k.Encode (newEnvelope c inp) = .ok b)
    (hp : k.Post (httpClient k c) c.URL (contentType c) b = .error e) :
    RoundTrip k c inp out =
      returning [Event.encode (newEnvelope c inp),
        Event.post (httpClient k c) c.URL (contentType c) b] [] (some e) out := by
  simp [RoundTrip, hb, hp]

/-- RoundTrip when the encoder and Post succeed. -/
theorem RoundTrip_of_post_ok (k : Collaborators V I T R E) (c : Client V T)
    (inp : Message V) (out : I) (b : Bytes) (resp : Response R)
    (hb : k.Encode (newEnvelope c inp) = .ok b)
    (hp : k.Post (httpClient k c) c.URL (contentType c) b = .ok resp) :
    RoundTrip k c inp out =
      returning [Event.encode (newEnvelope c inp),
        Event.post (httpClient k c) c.URL (contentType c) b, Event.decode resp.Body]
        [Event.close resp.Body] (k.Decode resp.Body out).2 (k.Decode resp.Body out).1 := by
  simp [RoundTrip, hb, hp]

/-- On every path the encoder is called once, first, with the envelope of lines 47-58. -/
theorem encodeCalls_RoundTrip (k : Collaborators V I T R E) (c : Client V T)
    (inp : Message V) (out : I) :
    encodeCalls (RoundTrip k c inp out).trace = [newEnvelope c inp] := by
  cases hb : k.Encode (newEnvelope c inp) with
  | error e => simp [RoundTrip_of_encode_error k c inp out e hb, returning, encodeCalls]
  | ok b =>
    cases hp : k.Post (httpClient k c) c.URL (contentType c) b with
    | error e => simp [RoundTrip_of_post_error k c inp out b e hb hp, returning, encodeCalls]
    | ok resp => simp [RoundTrip_of_post_ok k c inp out b resp hb hp, returning, encodeCalls]

/-! ## The envelope handed to the encoder -/

/-- C1: on every call the XML encoder receives exactly one envelope, and its
envelope-namespace attribute is the SOAP 1.1 URI when `Client.Envelope` is
empty and `Client.Envelope` itself otherwise. -/
theorem envelopeAttr_default_or_configured (k : Collaborators V I T R E) (c : Client V T)
    (inp : Message V) (out : I) :
    (encodeCalls (RoundTrip k c inp out).trace).map Envelope.EnvelopeAttr =
      [if c.Envelope = "" then "http://schemas.xmlsoap.org/soap/envelope/" else c.Envelope] := by
  rw [encodeCalls_RoundTrip, newEnvelope_fields]
  rfl

/-- C2: on every call the XML encoder receives exactly one envelope, and its
secondary-namespace attribute is `Client.URL` when `Client.Namespace` is
empty and `Client.Namespace` itself otherwise; with URL "http://x/svc" and
Namespace "urn:custom" it is "urn:custom", which is not the URL. -/
theorem nsAttr_default_or_configured (k : Collaborators V I T R E) (c : Client V T)
    (inp : Message V) (out : I) :
    (encodeCalls (RoundTrip k c inp out).trace).map Envelope.NSAttr =
        [if c.Namespace = "" then c.URL else c.Namespace] ∧
      (c.URL = "http://x/svc" → c.Namespace = "urn:custom" →
        (encodeCalls (RoundTrip k c inp out).trace).map Envelope.NSAttr = ["urn:custom"] ∧
          "urn:custom" ≠ c.URL) := by
  have h : (encodeCalls (RoundTrip k c inp out).trace).map Envelope.NSAttr =
      [if c.Namespace = "" then c.URL else c.Namespace] := by
    rw [encodeCalls_RoundTrip, newEnvelope_fields]
    rfl
  refine ⟨h, fun hu hn => ⟨?_, ?_⟩⟩
  · rw [h, hn]
    simp
  · rw [hu]
    decide

/-- C3, as amended: the envelope handed to the encoder always has a non-empty
envelope-namespace attribute, and its secondary-namespace attribute is
non-empty exactly when `Client.Namespace` or `Client.URL` is. -/
theorem attrs_nonempty_iff (k : Collaborators V I T R E) (c : Client V T)
    (inp : Message V) (out : I) :
    ∃ req, encodeCalls (RoundTrip k c inp out).trace = [req] ∧
      req.EnvelopeAttr ≠ "" ∧
      (req.NSAttr ≠ "" ↔ (c.Namespace ≠ "" ∨ c.URL ≠ "")) := by
  refine ⟨newEnvelope c inp, encodeCalls_RoundTrip k c inp out, ?_, ?_⟩
  · rw [newEnvelope_fields]
    by_cases h : c.Envelope = ""
    · simp [h]
    · simp [h]
  · rw [newEnvelope_fields]
    by_cases h : c.Namespace = ""
    · simp [h]
    · simp [h]

/-! ## Failure of the encoder and of the transport -/

/-- C4: when encoding the envelope fails with `e`, RoundTrip returns `e`, never
calls Post, never calls the decoder, and leaves the inbound value as it was. -/
theorem encode_error_returned (k : Collaborators V I T R E) (c : Client V T)
    (inp : Message V) (out : I) (e : E)
    (h : k.Encode (newEnvelope c inp) = .error e) :
    (RoundTrip k c inp out).err = some e ∧
      postCalls (RoundTrip k c inp out).trace = [] ∧
      decodeCalls (RoundTrip k c inp out).trace = [] ∧
      (RoundTrip k c inp out).out = out := by
  rw [RoundTrip_of_encode_error k c inp out e h]
  simp [returning, postCalls, decodeCalls]

/-- C5: when encoding succeeds and Post fails with `e`, RoundTrip returns `e`,
never calls the decoder, and leaves the inbound value as it was. -/
theorem post_error_returned (k : Collaborators V I T R E) (c : Client V T)
    (inp : Message V) (out : I) (b : Bytes) (e : E)
    (hb : k.Encode (newEnvelope c inp) = .ok b)
    (hp : k.Post (httpClient k c) c.URL (contentType c) b = .error e) :
    (RoundTrip k c inp out).err = some e ∧
      decodeCalls (RoundTrip k c inp out).trace = [] ∧
      (RoundTrip k c inp out).out = out := by
  rw [RoundTrip_of_post_error k c inp out b e hb hp]
  simp [returning, decodeCalls]

/-! ## The successful path -/

/-- C6: when encoding and Post succeed, the decoder is called once, on the raw
response body, and RoundTrip returns what that call returns: nil with the
inbound value as the decoder populated it, or the decoder's error. -/
theorem decode_result_returned (k : Collaborators V I T R E) (c : Client V T)
    (inp : Message V) (out : I) (b : Bytes) (resp : Response R)
    (hb : k.Encode (newEnvelope c inp) = .ok b)
    (hp : k.Post (httpClient k c) c.URL (contentType c) b = .ok resp) :
    decodeCalls (RoundTrip k c inp out).trace = [resp.Body] ∧
      ((RoundTrip k c inp out).out, (RoundTrip k c inp out).err) = k.Decode resp.Body out ∧
      (∀ v, k.Decode resp.Body out = (v, none) →
        (RoundTrip k c inp out).err = none ∧ (RoundTrip k c inp out).out = v) ∧
      (∀ v e, k.Decode resp.Body out = (v, some e) →
        (RoundTrip k c inp out).err = some e) := by
  rw [RoundTrip_of_post_ok k c inp out b resp hb hp]
  refine ⟨by simp [returning, decodeCalls], rfl, ?_, ?_⟩
  · intro v hv
    simp [returning, hv]
  · intro v e hv
    simp [returning, hv]

/-- C7: when the envelope encodes, the content type given to Post is "text/xml"
when `Client.ContentType` is empty and `Client.ContentType` itself otherwise. -/
theorem contentType_default_or_configured (k : Collaborators V I T R E) (c : Client V T)
    (inp : Message V) (out : I) (b : Bytes)
    (hb : k.Encode (newEnvelope c inp) = .ok b) :
    (postCalls (RoundTrip k c inp out).trace).map (fun p => p.2.2.1) =
      [if c.ContentType = "" then "text/xml" else c.ContentType] := by
  cases hp : k.Post (httpClient k c) c.URL (contentType c) b with
  | error e =>
    rw [RoundTrip_of_post_error k c inp out b e hb hp]
    simp [returning, postCalls, contentType]
  | ok resp =>
    rw [RoundTrip_of_post_ok k c inp out b resp hb hp]
    simp [returning, postCalls, contentType]

/-- C9: when the encoder turns the envelope {EnvelopeAttr, NSAttr, Header,
Body{Message: outbound}} into `b`, RoundTrip calls Post exactly once, whatever
Post and the decoder then do, on the configured client or the default one,
with destination `Client.URL` and body `b`. -/
theorem post_once_with_encoded_body (k : Collaborators V I T R E) (c : Client V T)
    (inp : Message V) (out : I) (b : Bytes)
    (hb : k.Encode
        { EnvelopeAttr :=
            if c.Envelope = "" then "http://schemas.xmlsoap.org/soap/envelope/" else c.Envelope
          NSAttr := if c.Namespace = "" then c.URL else c.Namespace
          Header := c.Header
          Body := { Message := inp } } = .ok b) :
    (postCalls (RoundTrip k c inp out).trace).map (fun p => (p.1, p.2.1, p.2.2.2)) =
      [(c.Config.getD k.DefaultClient, c.URL, b)] := by
  rw [← newEnvelope_fields] at hb
  have hc : httpClient k c = c.Config.getD k.DefaultClient := by
    unfold httpClient
    cases c.Config <;> rfl
  cases hp : k.Post (httpClient k c) c.URL (contentType c) b with
  | error e =>
    rw [RoundTrip_of_post_error k c inp out b e hb hp]
    simp [returning, postCalls, hc]
  | ok resp =>
    rw [RoundTrip_of_post_ok k c inp out b resp hb hp]
    simp [returning, postCalls, hc]

/-- C10: when Post succeeds the response body is closed exactly once, right
after the decoder has returned and right before the result reaches the
caller; when the encoder or Post fails nothing is closed. -/
theorem close_once_after_decode (k : Collaborators V I T R E) (c : Client V T)
    (inp : Message V) (out : I) :
    (∀ b resp, k.Encode (newEnvelope c inp) = .ok b →
        k.Post (httpClient k c) c.URL (contentType c) b = .ok resp →
        closeCalls (RoundTrip k c inp out).trace = [resp.Body] ∧
        ∃ before, (RoundTrip k c inp out).trace =
            before ++ [Event.decode resp.Body, Event.close resp.Body,
              Event.ret (RoundTrip k c inp out).err] ∧
          closeCalls before = [] ∧ decodeCalls before = []) ∧
      (∀ e, k.Encode (newEnvelope c inp) = .error e →
        closeCalls (RoundTrip k c inp out).trace = []) ∧
      (∀ b e, k.Encode (newEnvelope c inp) = .ok b →
        k.Post (httpClient k c) c.URL (contentType c) b = .error e →
        closeCalls (RoundTrip k c inp out).trace = []) := by
  refine ⟨?_, ?_, ?_⟩
  · intro b resp hb hp
    rw [RoundTrip_of_post_ok k c inp out b resp hb hp]
    refine ⟨by simp [returning, closeCalls], ?_⟩
    exact ⟨[Event.encode (newEnvelope c inp),
      Event.post (httpClient k c) c.URL (contentType c) b],
      by simp [returning], by simp [closeCalls], by simp [decodeCalls]⟩
  · intro e h
    rw [RoundTrip_of_encode_error k c inp out e h]
    simp [returning, closeCalls]
  · intro b e hb hp
    rw [RoundTrip_of_post_error k c inp out b e hb hp]
    simp [returning, closeCalls]

end

/-! ## The theorems at concrete inputs -/

/-- C3 fails as stated: for the zero-valued client (no URL, no Namespace) the
envelope handed to the encoder has an empty secondary-namespace attribute. -/
theorem nsAttr_empty_for_zero_client :
    (encodeCalls (RoundTrip stubs zeroClient (some (StubValue.ping "Ping"))
      (Result.mk "")).trace).map Envelope.NSAttr = [""] := by
  decide

/-- The amended C3 on the client of the scenario: both attributes are filled. -/
theorem attrs_nonempty_iff_witness :
    ∃ req, encodeCalls (RoundTrip stubs (svcClient "") (some (StubValue.ping "Ping"))
        (Result.mk "")).trace = [req] ∧
      req.EnvelopeAttr ≠ "" ∧
      (req.NSAttr ≠ "" ↔ ((svcClient "").Namespace ≠ "" ∨ (svcClient "").URL ≠ "")) :=
  attrs_nonempty_iff stubs (svcClient "") (some (StubValue.ping "Ping")) (Result.mk "")

/-- C4 on an outbound channel value, which the stub encoder rejects. -/
theorem encode_error_returned_witness :
    stubs.Encode (newEnvelope (svcClient "<Result/>") (some StubValue.channel)) =
        .error "xml: unsupported type: chan int" ∧
      (RoundTrip stubs (svcClient "<Result/>") (some StubValue.channel) (Result.mk "old")).err =
        some "xml: unsupported type: chan int" ∧
      postCalls (RoundTrip stubs (svcClient "<Result/>") (some StubValue.channel)
        (Result.mk "old")).trace = [] ∧
      decodeCalls (RoundTrip stubs (svcClient "<Result/>") (some StubValue.channel)
        (Result.mk "old")).trace = [] ∧
      (RoundTrip stubs (svcClient "<Result/>") (some StubValue.channel) (Result.mk "old")).out =
        Result.mk "old" :=
  ⟨rfl, encode_error_returned stubs (svcClient "<Result/>") (some StubValue.channel)
    (Result.mk "old") "xml: unsupported type: chan int" rfl⟩

/-- C5 on a client without Config: the default transport of the stubs refuses
the connection. -/
theorem post_error_returned_witness :
    stubs.Encode (newEnvelope zeroClient (some (StubValue.ping "Ping"))) = .ok stubDocument ∧
      stubs.Post (httpClient stubs zeroClient) zeroClient.URL (contentType zeroClient)
        stubDocument = .error "dial tcp: connection refused" ∧
      (RoundTrip stubs zeroClient (some (StubValue.ping "Ping")) (Result.mk "old")).err =
        some "dial tcp: connection refused" ∧
      decodeCalls (RoundTrip stubs zeroClient (some (StubValue.ping "Ping"))
        (Result.mk "old")).trace = [] ∧
      (RoundTrip stubs zeroClient (some (StubValue.ping "Ping")) (Result.mk "old")).out =
        Result.mk "old" :=
  ⟨rfl, rfl, post_error_returned stubs zeroClient (some (StubValue.ping "Ping"))
    (Result.mk "old") stubDocument "dial tcp: connection refused" rfl rfl⟩

/-- C6 on the scenario of the specification: `Client{URL: "http://x/svc"}`,
outbound `{Op: "Ping"}`, an empty `Result`, and a transport stub answering
`<Result><Status>OK</Status></Result>`: no error, and Status is "OK". -/
theorem decode_result_returned_witness :
    stubs.Encode (newEnvelope (svcClient "<Result><Status>OK</Status></Result>")
        (some (StubValue.ping "Ping"))) = .ok stubDocument ∧
      stubs.Post (httpClient stubs (svcClient "<Result><Status>OK</Status></Result>"))
        "http://x/svc" "text/xml" stubDocument =
        .ok (Response.mk "<Result><Status>OK</Status></Result>") ∧
      (RoundTrip stubs (svcClient "<Result><Status>OK</Status></Result>")
        (some (StubValue.ping "Ping")) (Result.mk "")).err = none ∧
      (RoundTrip stubs (svcClient "<Result><Status>OK</Status></Result>")
        (some (StubValue.ping "Ping")) (Result.mk "")).out.Status = "OK" ∧
      decodeCalls (RoundTrip stubs (svcClient "<Result><Status>OK</Status></Result>")
        (some (StubValue.ping "Ping")) (Result.mk "")).trace =
        ["<Result><Status>OK</Status></Result>"] := by
  have h := decode_result_returned stubs (svcClient "<Result><Status>OK</Status></Result>")
    (some (StubValue.ping "Ping")) (Result.mk "") stubDocument
    (Response.mk "<Result><Status>OK</Status></Result>") rfl rfl
  have h2 := h.2.2.1 (Result.mk "OK") rfl
  exact ⟨rfl, rfl, h2.1, by rw [h2.2], h.1⟩

/-- C7 on the client of the scenario, which configures no content type. -/
theorem contentType_default_or_configured_witness :
    stubs.Encode (newEnvelope (svcClient "<Result/>") (some (StubValue.ping "Ping"))) =
        .ok stubDocument ∧
      (postCalls (RoundTrip stubs (svcClient "<Result/>") (some (StubValue.ping "Ping"))
        (Result.mk "")).trace).map (fun p => p.2.2.1) = ["text/xml"] :=
  ⟨rfl, contentType_default_or_configured stubs (svcClient "<Result/>")
    (some (StubValue.ping "Ping")) (Result.mk "") stubDocument rfl⟩

/-- C9 on the client of the scenario with an AuthHeader configured. -/
theorem post_once_with_encoded_body_witness :
    stubs.Encode
        { EnvelopeAttr := "http://schemas.xmlsoap.org/soap/envelope/"
          NSAttr := "http://x/svc"
          Header := some (StubValue.auth (AuthHeader.mk "urn:auth" "user" "secret"))
          Body := { Message := some (StubValue.ping "Ping") } } = .ok stubDocument ∧
      (postCalls (RoundTrip stubs
        { svcClient "<Result/>" with
          Header := some (StubValue.auth (AuthHeader.mk "urn:auth" "user" "secret")) }
        (some (StubValue.ping "Ping")) (Result.mk "")).trace).map
          (fun p => (p.1, p.2.1, p.2.2.2)) =
      [(StubTransport.replies "<Result/>", "http://x/svc", stubDocument)] :=
  ⟨rfl, post_once_with_encoded_body stubs
    { svcClient "<Result/>" with
      Header := some (StubValue.auth (AuthHeader.mk "urn:auth" "user" "secret")) }
    (some (StubValue.ping "Ping")) (Result.mk "") stubDocument rfl⟩

/-- C10 on the scenario of the specification: one close, of the body Post returned. -/
theorem close_once_after_decode_witness :
    closeCalls (RoundTrip stubs (svcClient "<Result><Status>OK</Status></Result>")
        (some (StubValue.ping "Ping")) (Result.mk "")).trace =
      ["<Result><Status>OK</Status></Result>"] :=
  ((close_once_after_decode stubs (svcClient "<Result><Status>OK</Status></Result>")
    (some (StubValue.ping "Ping")) (Result.mk "")).1 stubDocument
    (Response.mk "<Result><Status>OK</Status></Result>") rfl rfl).1

end soap
